import Mathlib

/-!
Shallow embedding of the ESP32-S3 weather station firmware
(src/working_weather_Station_nokia_display_BME688_web_Server_v4/
working_weather_Station_nokia_display_BME688_web_Server_v4.ino),
together with theorems settling the specification claims about the
sensor acquisition state machine, the circular history buffer, the
windowed history query, and the navigation controller.

Hardware and transport collaborators (the BME688 driver, the display,
the encoder hardware, the NVS key-value store, HTTP and WebSocket
transports) are modelled as inputs and effect flags: the value a driver
call would return is a field of the input structure, and each
externally visible call the firmware makes (saving to NVS, pushing the
LED colour, setting the backlight duty) is recorded as a boolean effect.
-/

/-! ## Configuration constants (lines 110-148 of the sketch) -/

def HISTORY_SIZE : Nat := 2000

def CHUNK_SIZE : Nat := 200

def NUM_PAGES : Nat := 7

def GAS_READ_INTERVAL : Nat := 3600000

def COOL_DOWN_PERIOD : Nat := 300000

/-- Arduino macro constrain(amt, low, high) = (amt<low)?low:((amt>high)?high:amt),
used at lines 546, 738, 751 and 776 of the sketch. -/
def constrain (x lo hi : Int) : Int :=
  if x < lo then lo else if x > hi then hi else x

/-- Subtraction of 32-bit unsigned millis() values, as computed by
`now - coolingStartTime` etc. on the ESP32-S3 where unsigned long is 32 bits
(lines 319 and 323). -/
def usub32 (a b : Nat) : Nat := (a % 2 ^ 32 + (2 ^ 32 - b % 2 ^ 32)) % 2 ^ 32

/-! ## Data model: timestamped readings and the sensor state machine
(lines 104-141) -/

/-- struct SensorReading { time_t timestamp; float value; } (line 104).
The float payload is abstracted as an integer: none of the claims
computes with the stored scalar, they only store and retrieve it. -/
structure SensorReading where
  timestamp : Int
  value : Int
deriving DecidableEq, Repr

/-- enum SensorState { NORMAL_READING, GAS_MEASUREMENT, COOLING_DOWN } (line 134). -/
inductive SensorState where
  | NORMAL_READING
  | GAS_MEASUREMENT
  | COOLING_DOWN
deriving DecidableEq, Repr

open SensorState

/-- Pointwise update of a history array, modelling
`tempHistory[historyIndex] = {currentTime, bme.temperature}` (line 337). -/
def writeAt (h : Nat → SensorReading) (i : Nat) (r : SensorReading) :
    Nat → SensorReading :=
  fun j => if j = i then r else h j

/-- The mutable firmware state touched by handleSensorReadings and the web
handlers: the three PSRAM history arrays with their shared write cursor
(lines 112-115), the gas cache (lines 114-115), the acquisition state
machine fields (lines 135-141), plus the heater command last issued to the
BME688 (`bme.setGasHeater`, lines 326 and 356) recorded as a flag. -/
structure Station where
  tempHistory : Nat → SensorReading
  humiHistory : Nat → SensorReading
  presHistory : Nat → SensorReading
  historyIndex : Nat
  lastValidGasReading : Int
  lastGasReadTimestamp : Int
  currentSensorState : SensorState
  sensorReadingEndTime : Nat
  lastGasReadTime : Nat
  coolingStartTime : Nat
  heaterOn : Bool
  needsRedraw : Bool

/-- Values delivered by the collaborators during one handleSensorReadings
tick: millis() (`now`, line 316), time(nullptr) (line 336), the deadline
bme.beginReading() would return (line 333), whether bme.endReading()
succeeds (line 335), and the scalar outputs of the completed read
(lines 337-343; the float unit conversions pressure/100 and
gas_resistance/1000 are abstracted into the delivered values). -/
structure SensorInput where
  now : Nat
  wallTime : Int
  beginResult : Nat
  endOk : Bool
  temperature : Int
  humidity : Int
  pressure : Int
  gas_resistance : Int

/-- One tick of the acquisition logic: void handleSensorReadings()
(lines 315-367). First the timer-driven state transitions
(lines 319-329), then the non-blocking read protocol (lines 332-366). -/
def handleSensorReadings (st : Station) (inp : SensorInput) : Station :=
  let now := inp.now
  let st1 :=
    if st.currentSensorState = COOLING_DOWN ∧
        usub32 now st.coolingStartTime > COOL_DOWN_PERIOD then
      { st with currentSensorState := NORMAL_READING }
    else if st.currentSensorState = NORMAL_READING ∧
        usub32 now st.lastGasReadTime > GAS_READ_INTERVAL then
      { st with heaterOn := true, currentSensorState := GAS_MEASUREMENT,
                sensorReadingEndTime := 0 }
    else st
  if st1.sensorReadingEndTime = 0 ∧ st1.currentSensorState ≠ COOLING_DOWN then
    { st1 with sensorReadingEndTime := inp.beginResult }
  else if st1.sensorReadingEndTime > 0 ∧ now ≥ st1.sensorReadingEndTime then
    if inp.endOk then
      let st2 := { st1 with
        tempHistory := writeAt st1.tempHistory st1.historyIndex
          ⟨inp.wallTime, inp.temperature⟩,
        humiHistory := writeAt st1.humiHistory st1.historyIndex
          ⟨inp.wallTime, inp.humidity⟩,
        presHistory := writeAt st1.presHistory st1.historyIndex
          ⟨inp.wallTime, inp.pressure⟩ }
      let st3 :=
        if st2.currentSensorState = GAS_MEASUREMENT then
          let st2a :=
            if inp.gas_resistance > 0 then
              { st2 with lastValidGasReading := inp.gas_resistance,
                         lastGasReadTimestamp := inp.wallTime }
            else st2
          { st2a with heaterOn := false, currentSensorState := COOLING_DOWN,
                      coolingStartTime := now, lastGasReadTime := now }
        else st2
      { st3 with historyIndex := (st3.historyIndex + 1) % HISTORY_SIZE,
                 needsRedraw := true, sensorReadingEndTime := 0 }
    else
      { st1 with sensorReadingEndTime := 0 }
  else st1

/-! ## Circular history buffer
(append: lines 337-339 and 362; latest: line 569; offset read: line 897) -/

/-- A fixed-capacity ring of readings abstracted over its capacity, so the
capacity-5 scenario of the spec and the capacity-2000 firmware buffers are
instances of the same code.  The buffer is a total function pre-initialized
to the sentinel (line 281 initializes every slot), `head` is `historyIndex`. -/
structure HistoryRing where
  size : Nat
  buf : Nat → Int
  head : Nat

/-- A freshly initialized ring: every slot holds the sentinel value, the
write cursor is at slot 0 (lines 113 and 278-282). -/
def HistoryRing.fresh (n : Nat) : HistoryRing := ⟨n, fun _ => 0, 0⟩

/-- One append: write at the cursor, advance the cursor modulo the capacity
(`tempHistory[historyIndex] = ...; historyIndex = (historyIndex + 1) % HISTORY_SIZE`,
lines 337 and 362). -/
def HistoryRing.append (r : HistoryRing) (v : Int) : HistoryRing :=
  { r with buf := fun j => if j = r.head then v else r.buf j,
           head := (r.head + 1) % r.size }

/-- A whole sequence of appends in order. -/
def HistoryRing.appendList (r : HistoryRing) (vs : List Int) : HistoryRing :=
  vs.foldl HistoryRing.append r

/-- Physical index of the slot at logical offset `off` from the newest entry:
`(historyIndex - 1 - i + HISTORY_SIZE) % HISTORY_SIZE` (line 897, also
line 904).  For `head < size` and `off < size` the C int expression never
goes negative after the `+ size`, and it equals this Nat expression
because `off ≤ size - 1 ≤ head + size - 1` rules out truncation. -/
def ringIdx (head off size : Nat) : Nat := (head + size - 1 - off) % size

/-- Read at a logical offset from the newest entry (line 897). -/
def HistoryRing.atOffset (r : HistoryRing) (off : Nat) : Int :=
  r.buf (ringIdx r.head off r.size)

/-- The most recently written slot:
`(historyIndex == 0) ? HISTORY_SIZE - 1 : historyIndex - 1` (line 569). -/
def HistoryRing.latest (r : HistoryRing) : Int :=
  r.buf (if r.head = 0 then r.size - 1 else r.head - 1)

/-! ## Windowed history query: void handleData() (lines 541-565) -/

/-- `offset = constrain(offset, 0, HISTORY_SIZE - 1)` (line 546). -/
def clampOffset (offset : Int) : Int :=
  constrain offset 0 ((HISTORY_SIZE : Int) - 1)

/-- `int start = (historyIndex - CHUNK_SIZE - offset); while (start < 0)
start += HISTORY_SIZE; start %= HISTORY_SIZE;` (lines 548-552).  The while
loop adds HISTORY_SIZE until the value is nonnegative and the final `%=`
keeps it below HISTORY_SIZE, so the combination computes exactly the
Euclidean remainder modulo HISTORY_SIZE, which is Int `%` in Lean. -/
def dataStart (historyIndex : Nat) (offset : Int) : Int :=
  ((historyIndex : Int) - (CHUNK_SIZE : Int) - clampOffset offset) %
    (HISTORY_SIZE : Int)

/-- Physical index of the i-th returned point:
`int index = (start + i) % HISTORY_SIZE` (line 556), after the raw request
offset has been clamped (line 546). -/
def dataIndex (historyIndex : Nat) (offset : Int) (i : Nat) : Nat :=
  ((dataStart historyIndex offset).toNat + i) % HISTORY_SIZE

/-- Logical offset (0 = newest, see the spec glossary) of the physical slot
`idx` relative to the write cursor `head`; the inverse of `ringIdx`. -/
def logicalOffsetOf (head idx : Nat) : Nat :=
  (head + HISTORY_SIZE - 1 - idx) % HISTORY_SIZE

/-- Modelled from the spec: the starting logical offset the claim asserts,
`offsetFromNewest + windowSize - 1` clamped so it never exceeds
`capacity - 1` (spec section 4.3).  The sketch has no counterpart of this
clamp; this definition exists only to be compared with the code. -/
def specStartLogical (offset : Int) : Int :=
  min (clampOffset offset + ((CHUNK_SIZE : Int) - 1)) ((HISTORY_SIZE : Int) - 1)

/-! ## Navigation controller and RGB web handlers
(lines 117-131, 580-594, 659-688, 701-811) -/

/-- enum RgbSelectState { SELECT_R, SELECT_G, SELECT_B } (line 129). -/
inductive RgbSelectState where
  | SELECT_R
  | SELECT_G
  | SELECT_B
deriving DecidableEq, Repr

open RgbSelectState

/-- The navigation and settings state: currentPage and the encoder tracking
(lines 118-121), brightness state (lines 124-125), RGB state (lines
128-131).  `encoderCount` records the last value handed to
rotaryEncoder.setCount; redVal, greenVal and blueVal are uint8_t, so they
are stored already reduced modulo 256. -/
structure Nav where
  currentPage : Int
  oldEncoderPosition : Int
  encoderCount : Int
  lcdBrightness : Int
  brightnessEditMode : Bool
  rgbEditMode : Bool
  currentRgbSelectState : RgbSelectState
  redVal : Nat
  greenVal : Nat
  blueVal : Nat
  needsRedraw : Bool
deriving DecidableEq, Repr

/-- Externally visible side effects of one navigation or web-handler call:
saveBrightness() (line 747), saveRgbColor() (lines 771 and 597),
pixels.show() (lines 587 and 781), ledc_update_duty (line 754). -/
structure NavEffects where
  savedBrightness : Bool
  savedRgbColor : Bool
  ledShown : Bool
  backlightSet : Bool
deriving DecidableEq, Repr

def noEffects : NavEffects :=
  { savedBrightness := false, savedRgbColor := false,
    ledShown := false, backlightSet := false }

/-- The page-5 (settings) block of handleEncoder (lines 741-755): a click
toggles brightness edit mode, rebasing the encoder on entry and persisting
on exit; a rotation while editing sets the brightness clamped to [0,255]
and pushes the backlight duty. -/
def page5Step (st : Nav) (buttonClicked encoderRotated : Bool) (newPos : Int) :
    Nav × NavEffects :=
  let p : Nav × NavEffects :=
    if buttonClicked then
      if st.brightnessEditMode then
        ({ st with brightnessEditMode := false },
         { noEffects with savedBrightness := true })
      else
        ({ st with brightnessEditMode := true,
                   encoderCount := st.lcdBrightness * 4 }, noEffects)
    else (st, noEffects)
  if encoderRotated && p.1.brightnessEditMode then
    ({ p.1 with lcdBrightness := constrain newPos 0 255 },
     { p.2 with backlightSet := true })
  else p

/-- The page-6 (RGB) block of handleEncoder (lines 756-783): a click cycles
not-editing, R, G, B, back to not-editing with a persist; a rotation while
editing sets the selected channel clamped to [0,255] (stored through a
uint8_t, hence the mod 256) and pushes the LED colour. -/
def page6Step (st : Nav) (buttonClicked encoderRotated : Bool) (newPos : Int) :
    Nav × NavEffects :=
  let p : Nav × NavEffects :=
    if buttonClicked then
      if !st.rgbEditMode then
        ({ st with rgbEditMode := true, currentRgbSelectState := SELECT_R,
                   encoderCount := (st.redVal : Int) * 4 }, noEffects)
      else if st.currentRgbSelectState = SELECT_R then
        ({ st with currentRgbSelectState := SELECT_G,
                   encoderCount := (st.greenVal : Int) * 4 }, noEffects)
      else if st.currentRgbSelectState = SELECT_G then
        ({ st with currentRgbSelectState := SELECT_B,
                   encoderCount := (st.blueVal : Int) * 4 }, noEffects)
      else
        ({ st with rgbEditMode := false },
         { noEffects with savedRgbColor := true })
    else (st, noEffects)
  if encoderRotated && p.1.rgbEditMode then
    let v := (constrain newPos 0 255).toNat % 256
    let st3 :=
      if p.1.currentRgbSelectState = SELECT_R then { p.1 with redVal := v }
      else if p.1.currentRgbSelectState = SELECT_G then { p.1 with greenVal := v }
      else { p.1 with blueVal := v }
    (st3, { p.2 with ledShown := true })
  else p

/-- The rotation block of handleEncoder (lines 736-739): a rotation while
not editing the current page moves currentPage by the encoder delta,
clamped to [0, NUM_PAGES-1]. -/
def rotatePage (st : Nav) (encoderRotated : Bool) (newPos : Int) : Nav :=
  if encoderRotated = true ∧
      ¬(st.brightnessEditMode = true ∧ st.currentPage = 5) ∧
      ¬(st.rgbEditMode = true ∧ st.currentPage = 6) then
    let moved := st.currentPage + (newPos - st.oldEncoderPosition)
    { st with currentPage := constrain moved 0 ((NUM_PAGES : Int) - 1) }
  else st

/-- Dispatch to the per-page block (lines 741-783): page 5 runs the
brightness block, page 6 the RGB block, any other page does nothing. -/
def pageDispatch (st1 : Nav) (buttonClicked encoderRotated : Bool)
    (newPos : Int) : Nav × NavEffects :=
  if st1.currentPage = 5 then page5Step st1 buttonClicked encoderRotated newPos
  else if st1.currentPage = 6 then
    page6Step st1 buttonClicked encoderRotated newPos
  else (st1, noEffects)

/-- Lines 785-788: if the page changed during this event, clear both
edit-mode flags (no persistence happens here). -/
def exitOnPageChange (previousPage : Int) (p : Nav × NavEffects) :
    Nav × NavEffects :=
  if p.1.currentPage ≠ previousPage then
    ({ p.1 with brightnessEditMode := false, rgbEditMode := false }, p.2)
  else p

/-- Lines 790-791: rebase the encoder tracking and request a redraw. -/
def finalizeEncoder (newPos : Int) (p : Nav × NavEffects) : Nav × NavEffects :=
  ({ p.1 with oldEncoderPosition := newPos, needsRedraw := true }, p.2)

/-- void handleEncoder() (lines 701-792), with the debounced button edge and
the divided encoder count (rotaryEncoder.getCount() / 4, line 727) as
inputs.  If neither a click nor a rotation happened the handler returns
early (lines 730-732); otherwise the rotation block, the per-page block,
the page-change edit-mode exit and the final rebase run in order. -/
def handleEncoder (st : Nav) (buttonClicked : Bool) (newEncoderPosition : Int) :
    Nav × NavEffects :=
  if buttonClicked = false ∧ (newEncoderPosition != st.oldEncoderPosition) = false
  then (st, noEffects)
  else
    finalizeEncoder newEncoderPosition
      (exitOnPageChange st.currentPage
        (pageDispatch
          (rotatePage st (newEncoderPosition != st.oldEncoderPosition)
            newEncoderPosition)
          buttonClicked (newEncoderPosition != st.oldEncoderPosition)
          newEncoderPosition))

/-- An HTTP reply sent through server.send. -/
structure HttpResponse where
  code : Nat
  body : String
deriving DecidableEq, Repr

/-- void handleRgbSet() (lines 580-594).  The three request parameters are
`none` when absent; when present they carry the value String::toInt
produced.  Assignments to the uint8_t globals truncate modulo 256; the new
colour is pushed to the LED, a redraw is requested when the RGB page is
showing, and nothing is persisted. -/
def handleRgbSet (st : Nav) (r g b : Option Int) :
    Nav × NavEffects × HttpResponse :=
  match r, g, b with
  | some rv, some gv, some bv =>
    ({ st with redVal := (rv % 256).toNat, greenVal := (gv % 256).toNat,
               blueVal := (bv % 256).toNat,
               needsRedraw := decide (st.currentPage = 6) },
     { noEffects with ledShown := true },
     ⟨200, "OK"⟩)
  | _, _, _ => (st, noEffects, ⟨400, "Bad Request"⟩)

/-- The remote single-digit page-select command, identical in
webSocketEvent (lines 672-685) and handleSerialInput (lines 797-808):
a byte in ['0', '0' + NUM_PAGES) selects that page, rebases the encoder
count and tracking, and requests a redraw; anything else is ignored. -/
def remotePageSelect (st : Nav) (input : Nat) : Nav :=
  if 48 ≤ input ∧ input < 48 + NUM_PAGES then
    let newPage : Int := (input : Int) - 48
    if newPage ≠ st.currentPage then
      { st with currentPage := newPage, encoderCount := newPage * 4,
                oldEncoderPosition := newPage, needsRedraw := true }
    else st
  else st

/-! ## Concrete example states and inputs used by the witness theorems -/

/-- The sentinel-filled history the setup loop produces (lines 278-282). -/
def sentinelHistory : Nat → SensorReading := fun _ => ⟨0, 0⟩

/-- A station mid gas measurement with a read in flight. -/
def stGasExample : Station :=
  { tempHistory := sentinelHistory, humiHistory := sentinelHistory,
    presHistory := sentinelHistory, historyIndex := 0,
    lastValidGasReading := 7, lastGasReadTimestamp := 3,
    currentSensorState := SensorState.GAS_MEASUREMENT,
    sensorReadingEndTime := 500, lastGasReadTime := 0, coolingStartTime := 0,
    heaterOn := true, needsRedraw := false }

/-- A station cooling down with no read in flight. -/
def stCoolExample : Station :=
  { stGasExample with currentSensorState := SensorState.COOLING_DOWN,
                      sensorReadingEndTime := 0, heaterOn := false }

/-- A station in normal operation with no read in flight. -/
def stNormalExample : Station :=
  { stGasExample with currentSensorState := SensorState.NORMAL_READING,
                      sensorReadingEndTime := 0, heaterOn := false }

/-- A completed, successful read with a valid gas value. -/
def inpGoodGas : SensorInput :=
  { now := 1000, wallTime := 111, beginResult := 1500, endOk := true,
    temperature := 25, humidity := 40, pressure := 1013,
    gas_resistance := 50000 }

/-- A completed, successful read whose gas resistance came back 0. -/
def inpZeroGas : SensorInput := { inpGoodGas with gas_resistance := 0 }

/-- A read whose deadline passed but whose completion failed. -/
def inpFail : SensorInput := { inpGoodGas with endOk := false }

/-- A tick arriving 4000 seconds in: past both the 5-minute cooldown and
the 1-hour gas interval measured from millis 0. -/
def inpTickLate : SensorInput := { inpGoodGas with now := 4000000 }

/-- A navigation state on the main page with nothing being edited. -/
def navExample : Nav :=
  { currentPage := 0, oldEncoderPosition := 0, encoderCount := 0,
    lcdBrightness := 128, brightnessEditMode := false, rgbEditMode := false,
    currentRgbSelectState := RgbSelectState.SELECT_R, redVal := 10,
    greenVal := 0, blueVal := 10, needsRedraw := false }

/-- A navigation state stranded with brightness edit mode still set while
showing page 2 (reachable through a remote page switch during an edit). -/
def navEditExample : Nav :=
  { navExample with currentPage := 2, oldEncoderPosition := 2,
                    brightnessEditMode := true }

/-! ## Helper lemmas about the ring buffer -/

theorem HistoryRing.appendList_cons (r : HistoryRing) (v : Int) (tl : List Int) :
    r.appendList (v :: tl) = (r.append v).appendList tl := rfl

theorem HistoryRing.appendList_size (vs : List Int) :
    ∀ r : HistoryRing, (r.appendList vs).size = r.size := by
  induction vs with
  | nil => intro r; rfl
  | cons v tl ih =>
    intro r
    rw [HistoryRing.appendList_cons, ih]
    rfl

theorem HistoryRing.appendList_head (vs : List Int) :
    ∀ r : HistoryRing, 0 < r.size → r.head < r.size → r.head + vs.length ≤ r.size →
      (r.appendList vs).head = (r.head + vs.length) % r.size := by
  induction vs with
  | nil =>
    intro r h0 hh _
    simp [HistoryRing.appendList, Nat.mod_eq_of_lt hh]
  | cons v tl ih =>
    intro r h0 hh hlen
    rw [HistoryRing.appendList_cons]
    rcases Nat.lt_or_ge (r.head + 1) r.size with hlt | hge
    · have hsz : (r.append v).size = r.size := rfl
      have hstep : (r.append v).head = r.head + 1 := by
        simp [HistoryRing.append, Nat.mod_eq_of_lt hlt]
      have hh2 : (r.append v).head < (r.append v).size := by
        rw [hstep, hsz]; exact hlt
      have hlen2 : (r.append v).head + tl.length ≤ (r.append v).size := by
        rw [hstep, hsz]
        simp at hlen
        omega
      rw [ih (r.append v) (by rw [hsz]; exact h0) hh2 hlen2, hstep, hsz]
      congr 1
      simp
      omega
    · have heq : r.head + 1 = r.size := by omega
      have htl : tl = [] := by
        simp at hlen
        have : tl.length = 0 := by omega
        exact List.length_eq_zero.mp this
      subst htl
      simp [HistoryRing.appendList, HistoryRing.append, heq]

theorem HistoryRing.appendList_buf (vs : List Int) :
    ∀ (r : HistoryRing) (j : Nat), 0 < r.size → r.head < r.size →
      r.head + vs.length ≤ r.size →
      (r.appendList vs).buf j =
        if r.head ≤ j ∧ j < r.head + vs.length then vs.getD (j - r.head) 0
        else r.buf j := by
  induction vs with
  | nil =>
    intro r j h0 hh _
    show r.buf j = _
    rw [if_neg (by simp only [List.length_nil, Nat.add_zero]; omega)]
  | cons v tl ih =>
    intro r j h0 hh hlen
    rw [HistoryRing.appendList_cons]
    rcases Nat.lt_or_ge (r.head + 1) r.size with hlt | hge
    · have hsz : (r.append v).size = r.size := rfl
      have hstep : (r.append v).head = r.head + 1 := by
        simp [HistoryRing.append, Nat.mod_eq_of_lt hlt]
      have hh2 : (r.append v).head < (r.append v).size := by
        rw [hstep, hsz]; exact hlt
      have hlen2 : (r.append v).head + tl.length ≤ (r.append v).size := by
        rw [hstep, hsz]
        simp at hlen
        omega
      rw [ih (r.append v) j (by rw [hsz]; exact h0) hh2 hlen2, hstep]
      have hbuf : (r.append v).buf j = if j = r.head then v else r.buf j := rfl
      rcases Nat.lt_trichotomy j r.head with hj | hj | hj
      · have c1 : ¬(r.head + 1 ≤ j ∧ j < r.head + 1 + tl.length) := by omega
        have c2 : ¬(r.head ≤ j ∧ j < r.head + (v :: tl).length) := by
          simp
          omega
        rw [if_neg c1, if_neg c2, hbuf, if_neg (by omega)]
      · have c1 : ¬(r.head + 1 ≤ j ∧ j < r.head + 1 + tl.length) := by omega
        have c2 : r.head ≤ j ∧ j < r.head + (v :: tl).length := by
          simp
          omega
        rw [if_neg c1, if_pos c2, hbuf, if_pos hj, hj]
        simp
      · by_cases hin : j < r.head + 1 + tl.length
        · have c1 : r.head + 1 ≤ j ∧ j < r.head + 1 + tl.length := ⟨by omega, hin⟩
          have c2 : r.head ≤ j ∧ j < r.head + (v :: tl).length := by
            constructor
            · omega
            · simp
              omega
          rw [if_pos c1, if_pos c2]
          have hidx : j - r.head = (j - (r.head + 1)) + 1 := by omega
          rw [hidx]
          simp
        · have c1 : ¬(r.head + 1 ≤ j ∧ j < r.head + 1 + tl.length) := by omega
          have c2 : ¬(r.head ≤ j ∧ j < r.head + (v :: tl).length) := by
            simp
            omega
          rw [if_neg c1, if_neg c2, hbuf, if_neg (by omega)]
    · have heq : r.head + 1 = r.size := by omega
      have htl : tl = [] := by
        simp at hlen
        have : tl.length = 0 := by omega
        exact List.length_eq_zero.mp this
      subst htl
      show (r.append v).buf j = _
      have hbuf : (r.append v).buf j = if j = r.head then v else r.buf j := rfl
      rw [hbuf]
      rcases eq_or_ne j r.head with hj | hj
      · subst hj
        rw [if_pos rfl, if_pos (by simp)]
        simp
      · rw [if_neg hj, if_neg (by simp; omega)]

theorem fresh_appendList_atOffset (N : Nat) (vs : List Int) (j : Nat)
    (h0 : 0 < N) (hlen : vs.length ≤ N) (hj : j < vs.length) :
    ((HistoryRing.fresh N).appendList vs).atOffset j =
      vs.getD (vs.length - 1 - j) 0 := by
  have hsz : ((HistoryRing.fresh N).appendList vs).size = N :=
    HistoryRing.appendList_size vs _
  have hhd : ((HistoryRing.fresh N).appendList vs).head = vs.length % N := by
    have := HistoryRing.appendList_head vs (HistoryRing.fresh N) h0 h0
      (by simpa [HistoryRing.fresh] using hlen)
    simpa [HistoryRing.fresh] using this
  have hidx : ringIdx (vs.length % N) j N = vs.length - 1 - j := by
    rcases Nat.lt_or_ge vs.length N with hK | hK
    · rw [Nat.mod_eq_of_lt hK]
      unfold ringIdx
      have h1 : vs.length + N - 1 - j = N + (vs.length - 1 - j) := by omega
      rw [h1, Nat.add_mod_left, Nat.mod_eq_of_lt (by omega)]
    · have hKN : vs.length = N := by omega
      rw [hKN, Nat.mod_self]
      unfold ringIdx
      rw [Nat.mod_eq_of_lt (by omega)]
      omega
  have hbuf := HistoryRing.appendList_buf vs (HistoryRing.fresh N)
    (vs.length - 1 - j) h0 h0 (by simpa [HistoryRing.fresh] using hlen)
  unfold HistoryRing.atOffset
  rw [hsz, hhd, hidx, hbuf]
  rw [if_pos (by simp [HistoryRing.fresh]; omega)]
  simp [HistoryRing.fresh]

theorem fresh_appendList_latest (N : Nat) (vs : List Int)
    (h0 : 0 < N) (hne : vs ≠ []) (hlen : vs.length ≤ N) :
    ((HistoryRing.fresh N).appendList vs).latest = vs.getD (vs.length - 1) 0 := by
  have hK : 0 < vs.length := List.length_pos.mpr hne
  have hsz : ((HistoryRing.fresh N).appendList vs).size = N :=
    HistoryRing.appendList_size vs _
  have hhd : ((HistoryRing.fresh N).appendList vs).head = vs.length % N := by
    have := HistoryRing.appendList_head vs (HistoryRing.fresh N) h0 h0
      (by simpa [HistoryRing.fresh] using hlen)
    simpa [HistoryRing.fresh] using this
  have hbuf := HistoryRing.appendList_buf vs (HistoryRing.fresh N)
    (vs.length - 1) h0 h0 (by simpa [HistoryRing.fresh] using hlen)
  unfold HistoryRing.latest
  rw [hsz, hhd]
  rcases Nat.lt_or_ge vs.length N with hlt | hge
  · rw [Nat.mod_eq_of_lt hlt, if_neg (by omega)]
    rw [hbuf, if_pos (by simp [HistoryRing.fresh]; omega)]
    simp [HistoryRing.fresh]
  · have hKN : vs.length = N := by omega
    rw [hKN, Nat.mod_self, if_pos rfl]
    have : N - 1 = vs.length - 1 := by omega
    rw [this, hbuf, if_pos (by simp [HistoryRing.fresh]; omega)]
    simp [HistoryRing.fresh]

/-! ## Helper lemmas evaluating one acquisition tick in each scenario -/

theorem tick_gas_complete_valid (st : Station) (inp : SensorInput)
    (hstate : st.currentSensorState = GAS_MEASUREMENT)
    (hdl : 0 < st.sensorReadingEndTime)
    (hnow : st.sensorReadingEndTime ≤ inp.now)
    (hok : inp.endOk = true)
    (hgas : 0 < inp.gas_resistance) :
    handleSensorReadings st inp =
      { st with
        tempHistory := writeAt st.tempHistory st.historyIndex
          ⟨inp.wallTime, inp.temperature⟩,
        humiHistory := writeAt st.humiHistory st.historyIndex
          ⟨inp.wallTime, inp.humidity⟩,
        presHistory := writeAt st.presHistory st.historyIndex
          ⟨inp.wallTime, inp.pressure⟩,
        lastValidGasReading := inp.gas_resistance,
        lastGasReadTimestamp := inp.wallTime,
        heaterOn := false,
        currentSensorState := SensorState.COOLING_DOWN,
        coolingStartTime := inp.now,
        lastGasReadTime := inp.now,
        historyIndex := (st.historyIndex + 1) % HISTORY_SIZE,
        needsRedraw := true,
        sensorReadingEndTime := 0 } := by
  have hne : st.sensorReadingEndTime ≠ 0 := by omega
  simp [handleSensorReadings, hstate, hne, hdl, hnow, hok, hgas]

theorem tick_gas_complete_invalid (st : Station) (inp : SensorInput)
    (hstate : st.currentSensorState = GAS_MEASUREMENT)
    (hdl : 0 < st.sensorReadingEndTime)
    (hnow : st.sensorReadingEndTime ≤ inp.now)
    (hok : inp.endOk = true)
    (hgas : inp.gas_resistance ≤ 0) :
    handleSensorReadings st inp =
      { st with
        tempHistory := writeAt st.tempHistory st.historyIndex
          ⟨inp.wallTime, inp.temperature⟩,
        humiHistory := writeAt st.humiHistory st.historyIndex
          ⟨inp.wallTime, inp.humidity⟩,
        presHistory := writeAt st.presHistory st.historyIndex
          ⟨inp.wallTime, inp.pressure⟩,
        heaterOn := false,
        currentSensorState := SensorState.COOLING_DOWN,
        coolingStartTime := inp.now,
        lastGasReadTime := inp.now,
        historyIndex := (st.historyIndex + 1) % HISTORY_SIZE,
        needsRedraw := true,
        sensorReadingEndTime := 0 } := by
  have hne : st.sensorReadingEndTime ≠ 0 := by omega
  have hgneg : ¬(0 < inp.gas_resistance) := by omega
  simp [handleSensorReadings, hstate, hne, hdl, hnow, hok, hgneg]

theorem tick_finish_fail (st : Station) (inp : SensorInput)
    (hdl : 0 < st.sensorReadingEndTime)
    (hnow : st.sensorReadingEndTime ≤ inp.now)
    (hfail : inp.endOk = false)
    (hc : ¬(st.currentSensorState = SensorState.COOLING_DOWN ∧
        usub32 inp.now st.coolingStartTime > COOL_DOWN_PERIOD))
    (hn : ¬(st.currentSensorState = SensorState.NORMAL_READING ∧
        usub32 inp.now st.lastGasReadTime > GAS_READ_INTERVAL)) :
    handleSensorReadings st inp = { st with sensorReadingEndTime := 0 } := by
  have hne : st.sensorReadingEndTime ≠ 0 := by omega
  simp [handleSensorReadings, hne, hdl, hnow, hfail, hc, hn]

theorem tick_cooldown_elapsed (st : Station) (inp : SensorInput)
    (hstate : st.currentSensorState = SensorState.COOLING_DOWN)
    (helapsed : usub32 inp.now st.coolingStartTime > COOL_DOWN_PERIOD) :
    (handleSensorReadings st inp).currentSensorState =
      SensorState.NORMAL_READING := by
  simp only [handleSensorReadings, hstate, helapsed, gt_iff_lt, if_true,
    and_self, reduceCtorEq, and_false, if_false, eq_self_iff_true, true_and]
  split_ifs <;> simp_all

theorem tick_gas_interval_elapsed (st : Station) (inp : SensorInput)
    (hstate : st.currentSensorState = SensorState.NORMAL_READING)
    (helapsed : usub32 inp.now st.lastGasReadTime > GAS_READ_INTERVAL) :
    (handleSensorReadings st inp).currentSensorState =
      SensorState.GAS_MEASUREMENT ∧
    (handleSensorReadings st inp).heaterOn = true ∧
    (handleSensorReadings st inp).sensorReadingEndTime = inp.beginResult := by
  simp [handleSensorReadings, hstate, helapsed]

/-! ## Helper lemmas about the windowed query arithmetic -/

theorem clampOffset_bounds (offset : Int) :
    0 ≤ clampOffset offset ∧ clampOffset offset ≤ (HISTORY_SIZE : Int) - 1 := by
  unfold clampOffset constrain HISTORY_SIZE
  split_ifs <;> omega

/-! ## Helper lemmas about the navigation controller -/

theorem page5Step_currentPage (st : Nav) (b r : Bool) (n : Int) :
    (page5Step st b r n).1.currentPage = st.currentPage := by
  unfold page5Step
  cases b <;> cases hb : st.brightnessEditMode <;> simp [hb] <;> split_ifs <;> rfl

theorem page6Step_currentPage (st : Nav) (b r : Bool) (n : Int) :
    (page6Step st b r n).1.currentPage = st.currentPage := by
  unfold page6Step
  cases b <;> cases hb : st.rgbEditMode <;> simp [hb] <;> split_ifs <;> rfl

theorem page5Step_noSave (st : Nav) (r : Bool) (n : Int) :
    (page5Step st false r n).2.savedBrightness = false ∧
    (page5Step st false r n).2.savedRgbColor = false := by
  unfold page5Step
  simp
  split_ifs <;> simp [noEffects]

theorem page6Step_noSave (st : Nav) (r : Bool) (n : Int) :
    (page6Step st false r n).2.savedBrightness = false ∧
    (page6Step st false r n).2.savedRgbColor = false := by
  unfold page6Step
  simp
  split_ifs <;> simp [noEffects]

theorem pageDispatch_currentPage (st1 : Nav) (b r : Bool) (n : Int) :
    (pageDispatch st1 b r n).1.currentPage = st1.currentPage := by
  unfold pageDispatch
  split_ifs <;> simp [page5Step_currentPage, page6Step_currentPage]

theorem pageDispatch_noClick_noSave (st1 : Nav) (r : Bool) (n : Int) :
    (pageDispatch st1 false r n).2.savedBrightness = false ∧
    (pageDispatch st1 false r n).2.savedRgbColor = false := by
  unfold pageDispatch
  split_ifs <;>
    simp [page5Step_noSave, page6Step_noSave, noEffects]

theorem finalize_exit_snd (prev : Int) (n : Int) (q : Nav × NavEffects) :
    (finalizeEncoder n (exitOnPageChange prev q)).2 = q.2 := by
  unfold finalizeEncoder exitOnPageChange
  split_ifs <;> rfl

theorem handleEncoder_flags_or (st : Nav) (b : Bool) (n : Int) :
    (handleEncoder st b n).1.currentPage = st.currentPage ∨
    ((handleEncoder st b n).1.brightnessEditMode = false ∧
     (handleEncoder st b n).1.rgbEditMode = false) := by
  by_cases h1 : b = false ∧ (n != st.oldEncoderPosition) = false
  · left
    simp [handleEncoder, h1]
  · rw [handleEncoder, if_neg h1]
    by_cases h2 :
        (pageDispatch (rotatePage st (n != st.oldEncoderPosition) n) b
          (n != st.oldEncoderPosition) n).1.currentPage ≠ st.currentPage
    · right
      unfold finalizeEncoder exitOnPageChange
      rw [if_pos h2]
      exact ⟨rfl, rfl⟩
    · left
      unfold finalizeEncoder exitOnPageChange
      rw [if_neg h2]
      push_neg at h2
      exact h2

theorem handleEncoder_noClick_noSave (st : Nav) (n : Int) :
    (handleEncoder st false n).2.savedBrightness = false ∧
    (handleEncoder st false n).2.savedRgbColor = false := by
  by_cases h1 : (false : Bool) = false ∧ (n != st.oldEncoderPosition) = false
  · simp [handleEncoder, h1, noEffects]
  · rw [handleEncoder, if_neg h1, finalize_exit_snd]
    exact pageDispatch_noClick_noSave _ _ _

/-! ## Claim theorems -/

/-- C1, counterexample: the claim asserts that handleData clamps the
starting logical offset (offsetFromNewest + windowSize - 1) to at most
capacity - 1, so that no returned point is read from a slot logically
across the write cursor.  The code instead reduces the start index modulo
the capacity: with the cursor at 5 and request offset 1999 (already within
the clamped range [0, 1999]) the first returned point sits at logical
offset 198, not at the clamped start 1999 the claim requires, and point
198 of the response is the newest slot (logical offset 0), i.e. the window
does read across the write cursor. -/
theorem C1_clamp_counterexample :
    clampOffset 1999 = 1999 ∧
    specStartLogical 1999 = (HISTORY_SIZE : Int) - 1 ∧
    (logicalOffsetOf 5 (dataIndex 5 1999 0) : Int) = 198 ∧
    (198 : Int) ≠ specStartLogical 1999 ∧
    dataIndex 5 1999 198 = ringIdx 5 0 HISTORY_SIZE ∧
    logicalOffsetOf 5 (dataIndex 5 1999 198) = 0 := by decide

/-- C1, amended: after the request offset is clamped to [0, capacity-1],
handleData normalizes the start index modulo the capacity, so the start is
always inside the array (no out-of-bounds access); and whenever the
clamped offset satisfies offset + windowSize ≤ capacity, returned point i
is read from logical offset exactly offset + windowSize - 1 - i, so no
point lies logically across the write cursor.  For larger clamped offsets
the window wraps modulo the capacity and reaches the newest slots. -/
theorem C1_amended_window_bounds (head : Nat) (offset : Int) (i : Nat)
    (hh : head < HISTORY_SIZE) (hi : i < CHUNK_SIZE) :
    (0 ≤ dataStart head offset ∧ dataStart head offset < (HISTORY_SIZE : Int)) ∧
    (clampOffset offset + (CHUNK_SIZE : Int) ≤ (HISTORY_SIZE : Int) →
      (logicalOffsetOf head (dataIndex head offset i) : Int) =
        clampOffset offset + ((CHUNK_SIZE : Int) - 1) - (i : Int)) := by
  obtain ⟨hc0, hc1⟩ := clampOffset_bounds offset
  refine ⟨⟨?_, ?_⟩, fun hoff => ?_⟩
  · simp only [dataStart, HISTORY_SIZE, CHUNK_SIZE] at *
    omega
  · simp only [dataStart, HISTORY_SIZE, CHUNK_SIZE] at *
    omega
  · simp only [dataStart, dataIndex, logicalOffsetOf, HISTORY_SIZE,
      CHUNK_SIZE] at *
    omega

/-- C1, witness for the amended theorem at cursor 5, offset 1800, point 0. -/
theorem C1_amended_window_bounds_witness :
    (5 < HISTORY_SIZE ∧ 0 < CHUNK_SIZE ∧
      clampOffset 1800 + (CHUNK_SIZE : Int) ≤ (HISTORY_SIZE : Int)) ∧
    (0 ≤ dataStart 5 1800 ∧ dataStart 5 1800 < (HISTORY_SIZE : Int)) ∧
    (logicalOffsetOf 5 (dataIndex 5 1800 0) : Int) =
      clampOffset 1800 + ((CHUNK_SIZE : Int) - 1) - ((0 : Nat) : Int) := by
  refine ⟨⟨by decide, by decide, by decide⟩, ?_, ?_⟩
  · exact (C1_amended_window_bounds 5 1800 0 (by decide) (by decide)).1
  · exact (C1_amended_window_bounds 5 1800 0 (by decide) (by decide)).2
      (by decide)

/-- C2: the gas duty cycle of handleSensorReadings.  From GAS_MEASUREMENT,
one completed successful read moves the machine to COOLING_DOWN with both
coolingStartTime and lastGasReadTime set to now; from COOLING_DOWN, a tick
with now - coolingStartTime beyond the 5-minute cooldown moves it to
NORMAL_READING; from NORMAL_READING, a tick with now - lastGasReadTime
beyond the 1-hour interval arms the heater, moves it to GAS_MEASUREMENT,
clears the pending deadline and immediately begins a fresh read (so the
deadline after the tick is the fresh read deadline). -/
theorem C2_gas_cycle (st : Station) (inp : SensorInput) :
    (st.currentSensorState = SensorState.GAS_MEASUREMENT →
      0 < st.sensorReadingEndTime → st.sensorReadingEndTime ≤ inp.now →
      inp.endOk = true → 0 < inp.gas_resistance →
      (handleSensorReadings st inp).currentSensorState =
        SensorState.COOLING_DOWN ∧
      (handleSensorReadings st inp).coolingStartTime = inp.now ∧
      (handleSensorReadings st inp).lastGasReadTime = inp.now) ∧
    (st.currentSensorState = SensorState.COOLING_DOWN →
      usub32 inp.now st.coolingStartTime > COOL_DOWN_PERIOD →
      (handleSensorReadings st inp).currentSensorState =
        SensorState.NORMAL_READING) ∧
    (st.currentSensorState = SensorState.NORMAL_READING →
      usub32 inp.now st.lastGasReadTime > GAS_READ_INTERVAL →
      (handleSensorReadings st inp).currentSensorState =
        SensorState.GAS_MEASUREMENT ∧
      (handleSensorReadings st inp).heaterOn = true ∧
      (handleSensorReadings st inp).sensorReadingEndTime = inp.beginResult) := by
  refine ⟨fun h1 h2 h3 h4 h5 => ?_,
    fun h1 h2 => tick_cooldown_elapsed st inp h1 h2,
    fun h1 h2 => tick_gas_interval_elapsed st inp h1 h2⟩
  rw [tick_gas_complete_valid st inp h1 h2 h3 h4 h5]
  exact ⟨rfl, rfl, rfl⟩

/-- C2 witness: the three transitions at concrete states and inputs. -/
theorem C2_gas_cycle_witness :
    (stGasExample.currentSensorState = SensorState.GAS_MEASUREMENT ∧
     (handleSensorReadings stGasExample inpGoodGas).currentSensorState =
       SensorState.COOLING_DOWN ∧
     (handleSensorReadings stGasExample inpGoodGas).coolingStartTime =
       inpGoodGas.now ∧
     (handleSensorReadings stGasExample inpGoodGas).lastGasReadTime =
       inpGoodGas.now) ∧
    (stCoolExample.currentSensorState = SensorState.COOLING_DOWN ∧
     (handleSensorReadings stCoolExample inpTickLate).currentSensorState =
       SensorState.NORMAL_READING) ∧
    (stNormalExample.currentSensorState = SensorState.NORMAL_READING ∧
     (handleSensorReadings stNormalExample inpTickLate).currentSensorState =
       SensorState.GAS_MEASUREMENT ∧
     (handleSensorReadings stNormalExample inpTickLate).heaterOn = true ∧
     (handleSensorReadings stNormalExample inpTickLate).sensorReadingEndTime =
       inpTickLate.beginResult) := by
  refine ⟨⟨rfl, (C2_gas_cycle stGasExample inpGoodGas).1 rfl (by decide)
      (by decide) rfl (by decide)⟩,
    ⟨rfl, (C2_gas_cycle stCoolExample inpTickLate).2.1 rfl (by decide)⟩,
    ⟨rfl, (C2_gas_cycle stNormalExample inpTickLate).2.2 rfl (by decide)⟩⟩

/-- C3: for any capacity N > 0 and any nonempty sequence of at most N
appends into a freshly initialized ring, reading at logical offset 0
yields the most recent appended value, offset length-1 yields the first,
and latest() agrees with offset 0; and in the concrete capacity-5 scenario
with appends [10..16] (which wraps), latest() = 16, atOffset 0 = 16 and
atOffset 4 = 12. -/
theorem C3_ring_buffer_order (N : Nat) (vs : List Int)
    (h0 : 0 < N) (hne : vs ≠ []) (hlen : vs.length ≤ N) :
    ((HistoryRing.fresh N).appendList vs).atOffset 0 =
      vs.getD (vs.length - 1) 0 ∧
    ((HistoryRing.fresh N).appendList vs).atOffset (vs.length - 1) =
      vs.getD 0 0 ∧
    ((HistoryRing.fresh N).appendList vs).latest = vs.getD (vs.length - 1) 0 ∧
    ((HistoryRing.fresh 5).appendList [10, 11, 12, 13, 14, 15, 16]).latest =
      16 ∧
    ((HistoryRing.fresh 5).appendList [10, 11, 12, 13, 14, 15, 16]).atOffset 0 =
      16 ∧
    ((HistoryRing.fresh 5).appendList [10, 11, 12, 13, 14, 15, 16]).atOffset 4 =
      12 := by
  have hK : 0 < vs.length := List.length_pos.mpr hne
  refine ⟨?_, ?_, fresh_appendList_latest N vs h0 hne hlen,
    by decide, by decide, by decide⟩
  · simpa using fresh_appendList_atOffset N vs 0 h0 hlen hK
  · have h := fresh_appendList_atOffset N vs (vs.length - 1) h0 hlen (by omega)
    rw [h, Nat.sub_self]

/-- C3 witness: three appends into a capacity-5 ring. -/
theorem C3_ring_buffer_order_witness :
    ((0 : Nat) < 5 ∧ ([10, 11, 12] : List Int) ≠ [] ∧
      ([10, 11, 12] : List Int).length ≤ 5) ∧
    ((HistoryRing.fresh 5).appendList [10, 11, 12]).atOffset 0 = 12 ∧
    ((HistoryRing.fresh 5).appendList [10, 11, 12]).atOffset 2 = 10 ∧
    ((HistoryRing.fresh 5).appendList [10, 11, 12]).latest = 12 := by
  have h := C3_ring_buffer_order 5 [10, 11, 12] (by decide) (by decide)
    (by decide)
  exact ⟨⟨by decide, by decide, by decide⟩, h.1, h.2.1, h.2.2.1⟩

/-- C4: a successful read completing in GAS_MEASUREMENT with gas
resistance ≤ 0 leaves the gas cache (lastValidGasReading,
lastGasReadTimestamp) unchanged, yet still turns the heater off, enters
COOLING_DOWN and starts the cooldown timer, exactly as for a valid value. -/
theorem C4_invalid_gas_cooldown (st : Station) (inp : SensorInput)
    (hstate : st.currentSensorState = SensorState.GAS_MEASUREMENT)
    (hdl : 0 < st.sensorReadingEndTime)
    (hnow : st.sensorReadingEndTime ≤ inp.now)
    (hok : inp.endOk = true)
    (hgas : inp.gas_resistance ≤ 0) :
    (handleSensorReadings st inp).lastValidGasReading =
      st.lastValidGasReading ∧
    (handleSensorReadings st inp).lastGasReadTimestamp =
      st.lastGasReadTimestamp ∧
    (handleSensorReadings st inp).currentSensorState =
      SensorState.COOLING_DOWN ∧
    (handleSensorReadings st inp).heaterOn = false ∧
    (handleSensorReadings st inp).coolingStartTime = inp.now := by
  rw [tick_gas_complete_invalid st inp hstate hdl hnow hok hgas]
  exact ⟨rfl, rfl, rfl, rfl, rfl⟩

/-- C4 witness: a zero gas reading at a concrete state. -/
theorem C4_invalid_gas_cooldown_witness :
    (stGasExample.currentSensorState = SensorState.GAS_MEASUREMENT ∧
     inpZeroGas.gas_resistance ≤ 0) ∧
    (handleSensorReadings stGasExample inpZeroGas).lastValidGasReading =
      stGasExample.lastValidGasReading ∧
    (handleSensorReadings stGasExample inpZeroGas).lastGasReadTimestamp =
      stGasExample.lastGasReadTimestamp ∧
    (handleSensorReadings stGasExample inpZeroGas).currentSensorState =
      SensorState.COOLING_DOWN ∧
    (handleSensorReadings stGasExample inpZeroGas).heaterOn = false ∧
    (handleSensorReadings stGasExample inpZeroGas).coolingStartTime =
      inpZeroGas.now :=
  ⟨⟨rfl, by decide⟩, C4_invalid_gas_cooldown stGasExample inpZeroGas rfl
    (by decide) (by decide) rfl (by decide)⟩

/-- C5: when the in-flight read deadline has passed and finishing the read
fails (and no timer transition fires on this tick, which is the case
whenever a finish is actually attempted, since the NORMAL-to-GAS
transition clears the deadline before the read logic runs), no history
slot is written, the write cursor, gas cache and acquisition state are
unchanged, and the in-flight marker is cleared so the next tick re-arms a
read; nothing is retried within the tick. -/
theorem C5_read_failure_no_write (st : Station) (inp : SensorInput)
    (hdl : 0 < st.sensorReadingEndTime)
    (hnow : st.sensorReadingEndTime ≤ inp.now)
    (hfail : inp.endOk = false)
    (hc : ¬(st.currentSensorState = SensorState.COOLING_DOWN ∧
        usub32 inp.now st.coolingStartTime > COOL_DOWN_PERIOD))
    (hn : ¬(st.currentSensorState = SensorState.NORMAL_READING ∧
        usub32 inp.now st.lastGasReadTime > GAS_READ_INTERVAL)) :
    (handleSensorReadings st inp).tempHistory = st.tempHistory ∧
    (handleSensorReadings st inp).humiHistory = st.humiHistory ∧
    (handleSensorReadings st inp).presHistory = st.presHistory ∧
    (handleSensorReadings st inp).historyIndex = st.historyIndex ∧
    (handleSensorReadings st inp).lastValidGasReading =
      st.lastValidGasReading ∧
    (handleSensorReadings st inp).lastGasReadTimestamp =
      st.lastGasReadTimestamp ∧
    (handleSensorReadings st inp).currentSensorState = st.currentSensorState ∧
    (handleSensorReadings st inp).sensorReadingEndTime = 0 := by
  rw [tick_finish_fail st inp hdl hnow hfail hc hn]
  exact ⟨rfl, rfl, rfl, rfl, rfl, rfl, rfl, rfl⟩

/-- C5 witness: a failed read completion at a concrete state. -/
theorem C5_read_failure_no_write_witness :
    (0 < stGasExample.sensorReadingEndTime ∧ inpFail.endOk = false) ∧
    (handleSensorReadings stGasExample inpFail).tempHistory =
      stGasExample.tempHistory ∧
    (handleSensorReadings stGasExample inpFail).humiHistory =
      stGasExample.humiHistory ∧
    (handleSensorReadings stGasExample inpFail).presHistory =
      stGasExample.presHistory ∧
    (handleSensorReadings stGasExample inpFail).historyIndex =
      stGasExample.historyIndex ∧
    (handleSensorReadings stGasExample inpFail).lastValidGasReading =
      stGasExample.lastValidGasReading ∧
    (handleSensorReadings stGasExample inpFail).lastGasReadTimestamp =
      stGasExample.lastGasReadTimestamp ∧
    (handleSensorReadings stGasExample inpFail).currentSensorState =
      stGasExample.currentSensorState ∧
    (handleSensorReadings stGasExample inpFail).sensorReadingEndTime = 0 :=
  ⟨⟨by decide, rfl⟩, C5_read_failure_no_write stGasExample inpFail
    (by decide) (by decide) rfl (by decide) (by decide)⟩

/-- C6: a rotation event (no simultaneous click edge) that changes
currentPage leaves both edit-mode flags false afterwards and performs no
persistence (saveBrightness and saveRgbColor are not called); persistence
only ever happens on a click. -/
theorem C6_rotation_exits_edit_without_persist (st : Nav) (newPos : Int)
    (hchg : (handleEncoder st false newPos).1.currentPage ≠ st.currentPage) :
    (handleEncoder st false newPos).1.brightnessEditMode = false ∧
    (handleEncoder st false newPos).1.rgbEditMode = false ∧
    (handleEncoder st false newPos).2.savedBrightness = false ∧
    (handleEncoder st false newPos).2.savedRgbColor = false := by
  rcases handleEncoder_flags_or st false newPos with h | h
  · exact absurd h hchg
  · exact ⟨h.1, h.2, (handleEncoder_noClick_noSave st newPos).1,
      (handleEncoder_noClick_noSave st newPos).2⟩

/-- C6 witness: rotating off page 2 while a stale brightness edit is set. -/
theorem C6_rotation_exits_edit_without_persist_witness :
    (handleEncoder navEditExample false 3).1.currentPage ≠
      navEditExample.currentPage ∧
    (handleEncoder navEditExample false 3).1.brightnessEditMode = false ∧
    (handleEncoder navEditExample false 3).1.rgbEditMode = false ∧
    (handleEncoder navEditExample false 3).2.savedBrightness = false ∧
    (handleEncoder navEditExample false 3).2.savedRgbColor = false :=
  ⟨by decide, C6_rotation_exits_edit_without_persist navEditExample 3
    (by decide)⟩

/-- C7: GET /rgb/set returns 400 and mutates nothing when any of r, g, b
is missing; with all three present it returns 200 "OK", stores the parsed
values (reduced modulo 256 by the uint8_t assignment), pushes the colour
to the LED, and persists nothing. -/
theorem C7_rgb_set_response (st : Nav) (r g b : Option Int) :
    ((r = none ∨ g = none ∨ b = none) →
      (handleRgbSet st r g b).2.2 = ⟨400, "Bad Request"⟩ ∧
      (handleRgbSet st r g b).1 = st ∧
      (handleRgbSet st r g b).2.1 = noEffects) ∧
    (∀ rv gv bv : Int, r = some rv → g = some gv → b = some bv →
      (handleRgbSet st r g b).2.2 = ⟨200, "OK"⟩ ∧
      (handleRgbSet st r g b).1.redVal = (rv % 256).toNat ∧
      (handleRgbSet st r g b).1.greenVal = (gv % 256).toNat ∧
      (handleRgbSet st r g b).1.blueVal = (bv % 256).toNat ∧
      (handleRgbSet st r g b).2.1.ledShown = true ∧
      (handleRgbSet st r g b).2.1.savedRgbColor = false ∧
      (handleRgbSet st r g b).2.1.savedBrightness = false) := by
  constructor
  · intro hmiss
    rcases r with _ | rv
    · exact ⟨rfl, rfl, rfl⟩
    rcases g with _ | gv
    · exact ⟨rfl, rfl, rfl⟩
    rcases b with _ | bv
    · exact ⟨rfl, rfl, rfl⟩
    rcases hmiss with h | h | h <;> cases h
  · intro rv gv bv hr hg hb
    subst hr
    subst hg
    subst hb
    exact ⟨rfl, rfl, rfl, rfl, rfl, rfl, rfl⟩

/-- C7 witness: one request with r missing, one with all three present. -/
theorem C7_rgb_set_response_witness :
    ((handleRgbSet navExample none (some 1) (some 2)).2.2 =
        ⟨400, "Bad Request"⟩ ∧
     (handleRgbSet navExample none (some 1) (some 2)).1 = navExample ∧
     (handleRgbSet navExample none (some 1) (some 2)).2.1 = noEffects) ∧
    ((handleRgbSet navExample (some 5) (some 6) (some 7)).2.2 = ⟨200, "OK"⟩ ∧
     (handleRgbSet navExample (some 5) (some 6) (some 7)).1.redVal =
       ((5 : Int) % 256).toNat ∧
     (handleRgbSet navExample (some 5) (some 6) (some 7)).1.greenVal =
       ((6 : Int) % 256).toNat ∧
     (handleRgbSet navExample (some 5) (some 6) (some 7)).1.blueVal =
       ((7 : Int) % 256).toNat ∧
     (handleRgbSet navExample (some 5) (some 6) (some 7)).2.1.ledShown =
       true ∧
     (handleRgbSet navExample (some 5) (some 6) (some 7)).2.1.savedRgbColor =
       false ∧
     (handleRgbSet navExample (some 5) (some 6)
       (some 7)).2.1.savedBrightness = false) :=
  ⟨(C7_rgb_set_response navExample none (some 1) (some 2)).1 (Or.inl rfl),
   (C7_rgb_set_response navExample (some 5) (some 6) (some 7)).2 5 6 7
     rfl rfl rfl⟩

/-- C9: GET /rgb/set performs no range check: any parsed parameter value
is stored reduced modulo 256 (the uint8_t assignment), and in particular
r=300 stores 44 rather than being rejected or clamped to 255. -/
theorem C9_rgb_set_mod256 (st : Nav) (rv gv bv : Int) :
    (handleRgbSet st (some rv) (some gv) (some bv)).1.redVal =
      (rv % 256).toNat ∧
    (handleRgbSet st (some rv) (some gv) (some bv)).1.greenVal =
      (gv % 256).toNat ∧
    (handleRgbSet st (some rv) (some gv) (some bv)).1.blueVal =
      (bv % 256).toNat ∧
    (handleRgbSet st (some rv) (some gv) (some bv)).2.2 = ⟨200, "OK"⟩ ∧
    (handleRgbSet navExample (some 300) (some 0) (some 0)).1.redVal = 44 :=
  ⟨rfl, rfl, rfl, rfl, by decide⟩

/-- C10: a remote single-digit page-select command for a different page
sets currentPage, rebases the encoder count (4 per page) and the rotation
tracking, but leaves brightnessEditMode and rgbEditMode exactly as they
were, whereas a local rotation that changes the page clears both flags. -/
theorem C10_remote_page_keeps_edit_flags (st : Nav) (input : Nat) (p : Int)
    (h1 : 48 ≤ input) (h2 : input < 48 + NUM_PAGES)
    (h3 : (input : Int) - 48 ≠ st.currentPage) :
    (remotePageSelect st input).currentPage = (input : Int) - 48 ∧
    (remotePageSelect st input).oldEncoderPosition = (input : Int) - 48 ∧
    (remotePageSelect st input).encoderCount = ((input : Int) - 48) * 4 ∧
    (remotePageSelect st input).brightnessEditMode = st.brightnessEditMode ∧
    (remotePageSelect st input).rgbEditMode = st.rgbEditMode ∧
    ((handleEncoder st false p).1.currentPage ≠ st.currentPage →
      (handleEncoder st false p).1.brightnessEditMode = false ∧
      (handleEncoder st false p).1.rgbEditMode = false) := by
  have hsel : remotePageSelect st input =
      { st with currentPage := (input : Int) - 48,
                encoderCount := ((input : Int) - 48) * 4,
                oldEncoderPosition := (input : Int) - 48,
                needsRedraw := true } := by
    simp [remotePageSelect, h1, h2, h3]
  rw [hsel]
  refine ⟨rfl, rfl, rfl, rfl, rfl, fun hch => ?_⟩
  rcases handleEncoder_flags_or st false p with h | h
  · exact absurd h hch
  · exact h

/-- C10 witness: remote select of page 0 with a stale brightness edit. -/
theorem C10_remote_page_keeps_edit_flags_witness :
    (48 ≤ 48 ∧ 48 < 48 + NUM_PAGES ∧
      ((48 : Nat) : Int) - 48 ≠ navEditExample.currentPage) ∧
    (remotePageSelect navEditExample 48).currentPage =
      ((48 : Nat) : Int) - 48 ∧
    (remotePageSelect navEditExample 48).oldEncoderPosition =
      ((48 : Nat) : Int) - 48 ∧
    (remotePageSelect navEditExample 48).encoderCount =
      (((48 : Nat) : Int) - 48) * 4 ∧
    (remotePageSelect navEditExample 48).brightnessEditMode =
      navEditExample.brightnessEditMode ∧
    (remotePageSelect navEditExample 48).rgbEditMode =
      navEditExample.rgbEditMode ∧
    ((handleEncoder navEditExample false 3).1.currentPage ≠
        navEditExample.currentPage →
      (handleEncoder navEditExample false 3).1.brightnessEditMode = false ∧
      (handleEncoder navEditExample false 3).1.rgbEditMode = false) :=
  ⟨⟨by decide, by decide, by decide⟩,
   C10_remote_page_keeps_edit_flags navEditExample 48 3 (by decide)
     (by decide) (by decide)⟩

/-- C8: whenever a read completes successfully in GAS_MEASUREMENT,
lastGasReadTime is set to now whether or not the gas value was valid, so
after an invalid reading the next gas measurement is still scheduled a
full interval later, not sooner. -/
theorem C8_lastGasReadTime_always_set (st : Station) (inp : SensorInput)
    (hstate : st.currentSensorState = SensorState.GAS_MEASUREMENT)
    (hdl : 0 < st.sensorReadingEndTime)
    (hnow : st.sensorReadingEndTime ≤ inp.now)
    (hok : inp.endOk = true) :
    (handleSensorReadings st inp).lastGasReadTime = inp.now ∧
    (handleSensorReadings st inp).currentSensorState =
      SensorState.COOLING_DOWN := by
  by_cases hg : 0 < inp.gas_resistance
  · rw [tick_gas_complete_valid st inp hstate hdl hnow hok hg]
    exact ⟨rfl, rfl⟩
  · rw [tick_gas_complete_invalid st inp hstate hdl hnow hok (by omega)]
    exact ⟨rfl, rfl⟩

/-- C8 witness: a zero gas reading still stamps lastGasReadTime. -/
theorem C8_lastGasReadTime_always_set_witness :
    (stGasExample.currentSensorState = SensorState.GAS_MEASUREMENT ∧
     inpZeroGas.endOk = true) ∧
    (handleSensorReadings stGasExample inpZeroGas).lastGasReadTime =
      inpZeroGas.now ∧
    (handleSensorReadings stGasExample inpZeroGas).currentSensorState =
      SensorState.COOLING_DOWN :=
  ⟨⟨rfl, rfl⟩, C8_lastGasReadTime_always_set stGasExample inpZeroGas rfl
    (by decide) (by decide) rfl⟩
